import Mathlib

/-!
Shallow embedding of the OTP server core (src/otpserver.js and its Twilio
variant src/unnamed/part_000; the two files implement identical OTP logic).

The server keeps one Firestore document per normalized phone number in the
collection `otp_requests`, holding `otpHash`, `expiresAt` (epoch ms computed
as `Date.now() + OTP_EXPIRY_MS`) and `createdAt` (a Firestore
server-assigned timestamp).  The three POST endpoints `/send-otp`,
`/verify-otp` and `/reset-password` are embedded as pure functions over an
explicit store, with the clock readings, the random draw, the SMS delivery
outcome and the identity-store outcome passed in as explicit inputs.

`crypto.createHash("sha256")...` is a deterministic one-way function of the
code string; it is embedded as an explicit function parameter `hashOTP`
of every operation (determinism is then automatic; nothing below assumes
injectivity unless stated as a hypothesis).

The Firestore SDK validates document paths: `collection.doc(path)` throws
on the empty path, which the endpoints' catch blocks turn into a generic
500.  The operations are embedded twice where this matters: an idealized
store that accepts any key (`sendOtp`, `verifyOtp`), and a
document-path-validated refinement (`sendOtpFirestore`,
`verifyOtpFirestore`); the characterization lemmas `sendOtpFirestore_eq`
and `verifyOtpFirestore_eq` show the two agree on every phone whose
normalized key is nonempty, i.e. everywhere except all-non-digit phones.
-/

/-- `OTP_EXPIRY_MS = 5 * 60 * 1000` from the source (5 minutes). -/
def OTP_EXPIRY_MS : Nat := 5 * 60 * 1000

/-- `phone.replace(/\D/g, "").slice(-10)`: keep only decimal digits, then
take the last (at most) 10 characters.  JS `slice(-10)` on a string of
length `< 10` returns the whole string, which `List.drop (len - 10)` with
truncated subtraction reproduces. -/
def normalizePhone (s : String) : String :=
  let ds := s.data.filter Char.isDigit
  String.mk (ds.drop (ds.length - 10))

/-- `generateOTP()` is `Math.floor(100000 + Math.random() * 900000).toString()`.
With `Math.random()` ranging over `[0,1)`, the floor ranges exactly over the
integers `100000..999999`; the random draw is embedded as a natural number
`rand`, reduced mod 900000. -/
def generateOTP (rand : Nat) : String :=
  Nat.repr (100000 + rand % 900000)

/-- One stored document of the `otp_requests` collection:
`{ otpHash, expiresAt, createdAt }`.  `expiresAt` is epoch milliseconds from
the app clock; `createdAt` is a (distinct) server-assigned timestamp. -/
structure OtpRecord where
  otpHash : String
  expiresAt : Nat
  createdAt : Nat
deriving DecidableEq, Repr

/-- The `otp_requests` collection: one optional document per key. -/
def OtpStore : Type := String → Option OtpRecord

/-- `db.collection("otp_requests").doc(k).set(r)`: unconditional upsert. -/
def OtpStore.set (db : OtpStore) (k : String) (r : OtpRecord) : OtpStore :=
  fun k' => if k' = k then some r else db k'

/-- `ref.delete()` for the document at key `k`. -/
def OtpStore.del (db : OtpStore) (k : String) : OtpStore :=
  fun k' => if k' = k then none else db k'

/-- The empty collection. -/
def emptyStore : OtpStore := fun _ => none

/-- JS truthiness of an optional string body field: `!x` is true exactly
when the field is absent or the empty string. -/
def fieldPresent : Option String → Bool
  | none => false
  | some s => !(s = "")

/-- Outcome of `POST /send-otp`.  `storeError` is the generic 500 produced
by the catch block when the Firestore call itself throws — in particular
when `collection.doc(path)` rejects an invalid (empty) document path. -/
inductive SendResult where
  | invalidInput
  | sent
  | deliveryFailed
  | storeError
deriving DecidableEq, Repr

/-- Outcome of `POST /verify-otp`.  `storeError` is the generic 500
produced by the catch block when the Firestore call itself throws — in
particular when `collection.doc(path)` rejects an empty document path. -/
inductive VerifyResult where
  | invalidInput
  | notFound
  | expired
  | mismatch
  | verified
  | storeError
deriving DecidableEq, Repr

/-- Outcome of `POST /reset-password`. -/
inductive ResetResult where
  | invalidInput
  | notFound
  | expired
  | mismatch
  | passwordUpdated
  | identityError
deriving DecidableEq, Repr

/-- Observable store/identity effects of a `/reset-password` request, in the
order the source awaits them. -/
inductive REvent where
  | storeGet (k : String)
  | storeDelete (k : String)
  | idMutation (email : String)
deriving DecidableEq, Repr

/-- `POST /send-otp` (src/otpserver.js lines 55-93).  Checks `!phone` on the
raw field, normalizes, generates and hashes a code, writes the record with
`expiresAt = Date.now() + OTP_EXPIRY_MS` and `createdAt = serverTimestamp`,
then attempts SMS delivery (`deliveryOk`); a delivery failure yields the
500 response but the store write has already happened.  This version
idealizes the store to accept any key; it does not model the Firestore
SDK's document-path validation, which rejects the empty path that an
all-non-digit phone normalizes to.  `sendOtpFirestore` below adds that
validation, and `sendOtpFirestore_eq` shows the two agree on every phone
whose normalized key is nonempty. -/
def sendOtp (hashOTP : String → String) (db : OtpStore) (now serverNow : Nat)
    (phone : Option String) (rand : Nat) (deliveryOk : Bool) :
    SendResult × OtpStore :=
  match phone with
  | none => (.invalidInput, db)
  | some p =>
    if p = "" then (.invalidInput, db)
    else
      let key := normalizePhone p
      let otp := generateOTP rand
      let db' := db.set key ⟨hashOTP otp, now + OTP_EXPIRY_MS, serverNow⟩
      if deliveryOk then (.sent, db') else (.deliveryFailed, db')

/-- `POST /verify-otp` (src/otpserver.js lines 96-126).  Checks
`!phone || !otp`, normalizes, reads the record; absent record is
`notFound`; `Date.now() > expiresAt` deletes the record and is `expired`;
hash mismatch is `mismatch` with the store untouched; otherwise `verified`
with the store untouched.  Like `sendOtp`, this version idealizes away the
Firestore document-path validation on the normalized key;
`verifyOtpFirestore` below adds it, and `verifyOtpFirestore_eq` shows the
two agree on every phone whose normalized key is nonempty. -/
def verifyOtp (hashOTP : String → String) (db : OtpStore) (now : Nat)
    (phone otp : Option String) : VerifyResult × OtpStore :=
  match phone, otp with
  | some p, some o =>
    if p = "" ∨ o = "" then (.invalidInput, db)
    else
      let key := normalizePhone p
      match db key with
      | none => (.notFound, db)
      | some rec =>
        if rec.expiresAt < now then (.expired, db.del key)
        else if hashOTP o ≠ rec.otpHash then (.mismatch, db)
        else (.verified, db)
  | _, _ => (.invalidInput, db)

/-- `POST /reset-password` (src/otpserver.js lines 129-175).  Same checks as
`/verify-otp` plus `!newPassword`; on a hash match it deletes the record
and only then attempts the identity-store mutation for
`{cleanPhone}@userapp.com` (`idOk` is the outcome of that external call;
on failure the catch-all returns the 500 response, the record staying
deleted).  The event list records the awaited store/identity effects in
source order. -/
def resetPassword (hashOTP : String → String) (db : OtpStore) (now : Nat)
    (phone otp newPassword : Option String) (idOk : Bool) :
    ResetResult × OtpStore × List REvent :=
  match phone, otp, newPassword with
  | some p, some o, some pw =>
    if p = "" ∨ o = "" ∨ pw = "" then (.invalidInput, db, [])
    else
      let key := normalizePhone p
      match db key with
      | none => (.notFound, db, [.storeGet key])
      | some rec =>
        if rec.expiresAt < now then (.expired, db.del key, [.storeGet key, .storeDelete key])
        else if hashOTP o ≠ rec.otpHash then (.mismatch, db, [.storeGet key])
        else
          let db' := db.del key
          let email := key ++ "@userapp.com"
          ( if idOk then .passwordUpdated else .identityError,
            db', [.storeGet key, .storeDelete key, .idMutation email])
  | _, _, _ => (.invalidInput, db, [])

/-- The identity function on strings, used to instantiate the abstract
`hashOTP` parameter on concrete witness inputs. -/
def idHash : String → String := fun s => s

/-- A sample store holding one live record for the key `"9876543210"`:
code hash `"123456"` (under `idHash`), expiry at epoch-ms 300000,
server-assigned creation time 0. -/
def sampleDb : OtpStore :=
  OtpStore.set emptyStore "9876543210" ⟨"123456", 300000, 0⟩

/-- `POST /send-otp` with the Firestore SDK's document-path validation
modelled.  `db.collection("otp_requests").doc(phone)` at line 70 throws
synchronously on an empty document path (the SDK requires a non-empty
path), before anything is written; the catch block turns that throw into
the generic 500 (`storeError`).  An all-non-digit phone — the only input
whose normalized key is empty while the raw field passes the `!phone`
check — therefore stores nothing.  All other inputs behave exactly as in
`sendOtp` (see `sendOtpFirestore_eq`). -/
def sendOtpFirestore (hashOTP : String → String) (db : OtpStore)
    (now serverNow : Nat) (phone : Option String) (rand : Nat)
    (deliveryOk : Bool) : SendResult × OtpStore :=
  match phone with
  | none => (.invalidInput, db)
  | some p =>
    if p = "" then (.invalidInput, db)
    else
      let key := normalizePhone p
      if key = "" then (.storeError, db)
      else
        let otp := generateOTP rand
        let db' := db.set key ⟨hashOTP otp, now + OTP_EXPIRY_MS, serverNow⟩
        if deliveryOk then (.sent, db') else (.deliveryFailed, db')

/-- `POST /verify-otp` with the Firestore SDK's document-path validation
modelled: `db.collection("otp_requests").doc(cleanPhone)` at line 104
throws on the empty path before the read, and the catch block returns the
generic 500 (`storeError`) with the store untouched.  All other inputs
behave exactly as in `verifyOtp` (see `verifyOtpFirestore_eq`). -/
def verifyOtpFirestore (hashOTP : String → String) (db : OtpStore)
    (now : Nat) (phone otp : Option String) : VerifyResult × OtpStore :=
  match phone, otp with
  | some p, some o =>
    if p = "" ∨ o = "" then (.invalidInput, db)
    else
      let key := normalizePhone p
      if key = "" then (.storeError, db)
      else
        match db key with
        | none => (.notFound, db)
        | some rec =>
          if rec.expiresAt < now then (.expired, db.del key)
          else if hashOTP o ≠ rec.otpHash then (.mismatch, db)
          else (.verified, db)
  | _, _ => (.invalidInput, db)

/-! ### Basic facts about the embedding -/

/-- `Nat.toDigitsCore` never shortens its accumulator. -/
theorem length_le_toDigitsCore (b : Nat) :
    ∀ (fuel n : Nat) (ds : List Char), ds.length ≤ (Nat.toDigitsCore b fuel n ds).length
  | 0, _, _ => le_refl _
  | fuel+1, n, ds => by
    unfold Nat.toDigitsCore
    dsimp only
    split
    · simp
    · exact le_trans (by simp) (length_le_toDigitsCore b fuel _ _)

/-- The decimal representation of a natural number is a nonempty string. -/
theorem natRepr_ne_empty (n : Nat) : Nat.repr n ≠ "" := by
  unfold Nat.repr Nat.toDigits
  intro h
  have hlen : (Nat.toDigitsCore 10 (n + 1) n []).length = 0 := by
    have := congrArg String.length h
    simpa [List.asString, String.length] using this
  unfold Nat.toDigitsCore at hlen
  dsimp only at hlen
  revert hlen
  split
  · simp
  · intro hlen
    have h1 := length_le_toDigitsCore 10 n (n / 10) [Nat.digitChar (n % 10)]
    rw [hlen] at h1
    simp at h1

/-- A generated code is never the empty string, so it passes the `!otp`
check of the verify and reset endpoints. -/
theorem generateOTP_ne_empty (rand : Nat) : generateOTP rand ≠ "" :=
  natRepr_ne_empty _

/-- The document-path-validated send agrees with the idealized `sendOtp`
except on the one corner where the raw phone passes the `!phone` check but
normalizes to the empty key: there the SDK throw yields `storeError` with
no write. -/
theorem sendOtpFirestore_eq (hashOTP : String → String) (db : OtpStore)
    (now serverNow : Nat) (p : String) (rand : Nat) (deliveryOk : Bool) :
    sendOtpFirestore hashOTP db now serverNow (some p) rand deliveryOk
      = if p ≠ "" ∧ normalizePhone p = "" then (.storeError, db)
        else sendOtp hashOTP db now serverNow (some p) rand deliveryOk := by
  by_cases hp : p = "" <;> by_cases hk : normalizePhone p = "" <;>
    cases deliveryOk <;> simp [sendOtpFirestore, sendOtp, hp, hk]

/-- The document-path-validated verify agrees with the idealized
`verifyOtp` except on the empty-normalized-key corner, where the SDK throw
yields `storeError` with the store untouched. -/
theorem verifyOtpFirestore_eq (hashOTP : String → String) (db : OtpStore)
    (now : Nat) (p o : String) :
    verifyOtpFirestore hashOTP db now (some p) (some o)
      = if ¬(p = "" ∨ o = "") ∧ normalizePhone p = "" then (.storeError, db)
        else verifyOtp hashOTP db now (some p) (some o) := by
  by_cases hp : p = "" <;> by_cases ho : o = "" <;>
    by_cases hk : normalizePhone p = "" <;>
    simp [verifyOtpFirestore, verifyOtp, hp, ho, hk]

/-! ### Claims -/

/-- C1: `consumeForReset` (`POST /reset-password`) with the correct code for
a phone key holding a live, unexpired record succeeds (identity step
succeeding), deletes that record, and an immediately following
`consumeForReset` or `verifyOtp` with the same code on the same key fails
with `notFound`: single use, exactly once. -/
theorem C1_consumeForReset_single_use (hashOTP : String → String)
    (db : OtpStore) (now now2 : Nat) (p o pw : String) (rec : OtpRecord)
    (idOk2 : Bool)
    (hp : p ≠ "") (ho : o ≠ "") (hpw : pw ≠ "")
    (hrec : db (normalizePhone p) = some rec)
    (hlive : ¬ rec.expiresAt < now)
    (hmatch : hashOTP o = rec.otpHash) :
    (resetPassword hashOTP db now (some p) (some o) (some pw) true).1 = .passwordUpdated ∧
    (resetPassword hashOTP db now (some p) (some o) (some pw) true).2.1 (normalizePhone p) = none ∧
    (resetPassword hashOTP (resetPassword hashOTP db now (some p) (some o) (some pw) true).2.1
      now2 (some p) (some o) (some pw) idOk2).1 = .notFound ∧
    (verifyOtp hashOTP (resetPassword hashOTP db now (some p) (some o) (some pw) true).2.1
      now2 (some p) (some o)).1 = .notFound := by
  simp [resetPassword, verifyOtp, OtpStore.del, hp, ho, hpw, hrec, hlive, hmatch]

/-- C1, witnessed on concrete inputs. -/
theorem C1_consumeForReset_single_use_witness :
    (resetPassword idHash sampleDb 5 (some "9876543210") (some "123456") (some "pw") true).1
      = .passwordUpdated ∧
    (resetPassword idHash sampleDb 5 (some "9876543210") (some "123456") (some "pw") true).2.1
      (normalizePhone "9876543210") = none ∧
    (resetPassword idHash
      (resetPassword idHash sampleDb 5 (some "9876543210") (some "123456") (some "pw") true).2.1
      6 (some "9876543210") (some "123456") (some "pw") true).1 = .notFound ∧
    (verifyOtp idHash
      (resetPassword idHash sampleDb 5 (some "9876543210") (some "123456") (some "pw") true).2.1
      6 (some "9876543210") (some "123456")).1 = .notFound :=
  C1_consumeForReset_single_use idHash sampleDb 5 6 "9876543210" "123456" "pw"
    ⟨"123456", 300000, 0⟩ true (by decide) (by decide) (by decide) (by decide)
    (by decide) (by decide)

/-- C2: a `verifyOtp` (`POST /verify-otp`) performed before the TTL elapses
with the code freshly generated by `requestOtp` (`POST /send-otp`) on the
same phone input returns `verified`, whatever the store, the server
timestamp, the random draw and the SMS delivery outcome were. -/
theorem C2_request_then_verify_succeeds (hashOTP : String → String)
    (db : OtpStore) (now serverNow now2 : Nat) (p : String) (rand : Nat)
    (deliveryOk : Bool)
    (hp : p ≠ "") (ht : now2 ≤ now + OTP_EXPIRY_MS) :
    (verifyOtp hashOTP (sendOtp hashOTP db now serverNow (some p) rand deliveryOk).2 now2
      (some p) (some (generateOTP rand))).1 = .verified := by
  have hcode := generateOTP_ne_empty rand
  have hlt : ¬ (now + OTP_EXPIRY_MS < now2) := Nat.not_lt.mpr ht
  cases deliveryOk <;>
    simp [sendOtp, verifyOtp, OtpStore.set, hp, hcode, hlt]

/-- C2, witnessed on concrete inputs. -/
theorem C2_request_then_verify_succeeds_witness :
    (verifyOtp idHash (sendOtp idHash emptyStore 0 0 (some "9876543210") 0 true).2 1
      (some "9876543210") (some (generateOTP 0))).1 = .verified :=
  C2_request_then_verify_succeeds idHash emptyStore 0 0 1 "9876543210" 0 true
    (by decide) (by decide)

/-- C3: `verifyOtp` with a code whose hash differs from the stored
`otpHash` fails with `mismatch` and returns the store unchanged, so a
subsequent `verifyOtp` with the correct code within the TTL window still
returns `verified`. -/
theorem C3_mismatch_preserves_record (hashOTP : String → String)
    (db : OtpStore) (now now2 : Nat) (p wrong o : String) (rec : OtpRecord)
    (hp : p ≠ "") (hwrong : wrong ≠ "") (ho : o ≠ "")
    (hrec : db (normalizePhone p) = some rec)
    (hlive : ¬ rec.expiresAt < now)
    (hmis : hashOTP wrong ≠ rec.otpHash)
    (hmatch : hashOTP o = rec.otpHash)
    (hlive2 : ¬ rec.expiresAt < now2) :
    (verifyOtp hashOTP db now (some p) (some wrong)).1 = .mismatch ∧
    (verifyOtp hashOTP db now (some p) (some wrong)).2 = db ∧
    (verifyOtp hashOTP (verifyOtp hashOTP db now (some p) (some wrong)).2 now2
      (some p) (some o)).1 = .verified := by
  simp [verifyOtp, hp, hwrong, ho, hrec, hlive, hmis, hmatch, hlive2]

/-- C3, witnessed on concrete inputs. -/
theorem C3_mismatch_preserves_record_witness :
    (verifyOtp idHash sampleDb 5 (some "9876543210") (some "999999")).1 = .mismatch ∧
    (verifyOtp idHash sampleDb 5 (some "9876543210") (some "999999")).2 = sampleDb ∧
    (verifyOtp idHash (verifyOtp idHash sampleDb 5 (some "9876543210") (some "999999")).2 6
      (some "9876543210") (some "123456")).1 = .verified :=
  C3_mismatch_preserves_record idHash sampleDb 5 6 "9876543210" "999999" "123456"
    ⟨"123456", 300000, 0⟩ (by decide) (by decide) (by decide) (by decide)
    (by decide) (by decide) (by decide) (by decide)

/-- C4: `verifyOtp` on a key whose record is past `expiresAt`
(`now > expiresAt`) fails with `expired` and deletes the record, so every
subsequent `verifyOtp` on that key fails with `notFound`. -/
theorem C4_expired_verify_deletes (hashOTP : String → String)
    (db : OtpStore) (now now2 : Nat) (p o o2 : String) (rec : OtpRecord)
    (hp : p ≠ "") (ho : o ≠ "") (ho2 : o2 ≠ "")
    (hrec : db (normalizePhone p) = some rec)
    (hexp : rec.expiresAt < now) :
    (verifyOtp hashOTP db now (some p) (some o)).1 = .expired ∧
    (verifyOtp hashOTP db now (some p) (some o)).2 (normalizePhone p) = none ∧
    (verifyOtp hashOTP (verifyOtp hashOTP db now (some p) (some o)).2 now2
      (some p) (some o2)).1 = .notFound := by
  simp [verifyOtp, OtpStore.del, hp, ho, ho2, hrec, hexp]

/-- C4, witnessed on concrete inputs. -/
theorem C4_expired_verify_deletes_witness :
    (verifyOtp idHash sampleDb 300001 (some "9876543210") (some "123456")).1 = .expired ∧
    (verifyOtp idHash sampleDb 300001 (some "9876543210") (some "123456")).2
      (normalizePhone "9876543210") = none ∧
    (verifyOtp idHash (verifyOtp idHash sampleDb 300001 (some "9876543210") (some "123456")).2
      300002 (some "9876543210") (some "123456")).1 = .notFound :=
  C4_expired_verify_deletes idHash sampleDb 300001 300002 "9876543210" "123456" "123456"
    ⟨"123456", 300000, 0⟩ (by decide) (by decide) (by decide) (by decide) (by decide)

/-- C5: in the reset flow, the record deletion event occurs strictly before
the identity-store mutation event in the awaited effect order (the trace
splits as `pre ++ delete :: post` with the mutation in `post`), and this
holds for either identity outcome; afterwards the record is gone and a
retry of the reset with the same code fails with `notFound`. -/
theorem C5_delete_before_identity_mutation (hashOTP : String → String)
    (db : OtpStore) (now now2 : Nat) (p o pw : String) (rec : OtpRecord)
    (idOk idOk2 : Bool)
    (hp : p ≠ "") (ho : o ≠ "") (hpw : pw ≠ "")
    (hrec : db (normalizePhone p) = some rec)
    (hlive : ¬ rec.expiresAt < now)
    (hmatch : hashOTP o = rec.otpHash) :
    (∃ pre post,
      (resetPassword hashOTP db now (some p) (some o) (some pw) idOk).2.2
        = pre ++ REvent.storeDelete (normalizePhone p) :: post ∧
      REvent.idMutation (normalizePhone p ++ "@userapp.com") ∈ post) ∧
    (resetPassword hashOTP db now (some p) (some o) (some pw) idOk).2.1 (normalizePhone p) = none ∧
    (resetPassword hashOTP
      (resetPassword hashOTP db now (some p) (some o) (some pw) idOk).2.1
      now2 (some p) (some o) (some pw) idOk2).1 = .notFound := by
  refine ⟨⟨[REvent.storeGet (normalizePhone p)],
           [REvent.idMutation (normalizePhone p ++ "@userapp.com")], ?_, ?_⟩, ?_, ?_⟩ <;>
    simp [resetPassword, OtpStore.del, hp, ho, hpw, hrec, hlive, hmatch]

/-- C5, witnessed on concrete inputs, with the identity step failing on the
first call. -/
theorem C5_delete_before_identity_mutation_witness :
    (∃ pre post,
      (resetPassword idHash sampleDb 5 (some "9876543210") (some "123456") (some "pw") false).2.2
        = pre ++ REvent.storeDelete (normalizePhone "9876543210") :: post ∧
      REvent.idMutation (normalizePhone "9876543210" ++ "@userapp.com") ∈ post) ∧
    (resetPassword idHash sampleDb 5 (some "9876543210") (some "123456") (some "pw") false).2.1
      (normalizePhone "9876543210") = none ∧
    (resetPassword idHash
      (resetPassword idHash sampleDb 5 (some "9876543210") (some "123456") (some "pw") false).2.1
      6 (some "9876543210") (some "123456") (some "pw") true).1 = .notFound :=
  C5_delete_before_identity_mutation idHash sampleDb 5 6 "9876543210" "123456" "pw"
    ⟨"123456", 300000, 0⟩ false true (by decide) (by decide) (by decide) (by decide)
    (by decide) (by decide)

/-- C6: a second `requestOtp` for the same phone unconditionally overwrites
the prior record with the new code hash and expiry (whatever the previous
store contents and either delivery outcome), and afterwards the first
call's code — assuming its hash differs from the new code's hash — fails
with `mismatch` within the new TTL window. -/
theorem C6_resend_overwrites_invalidates_first (hashOTP : String → String)
    (db : OtpStore) (now1 sn1 now2 sn2 now3 : Nat) (p : String)
    (r1 r2 : Nat) (d1 d2 : Bool)
    (hp : p ≠ "")
    (hne : hashOTP (generateOTP r1) ≠ hashOTP (generateOTP r2))
    (hlive : ¬ now2 + OTP_EXPIRY_MS < now3) :
    (sendOtp hashOTP (sendOtp hashOTP db now1 sn1 (some p) r1 d1).2 now2 sn2 (some p) r2 d2).2
      (normalizePhone p)
      = some ⟨hashOTP (generateOTP r2), now2 + OTP_EXPIRY_MS, sn2⟩ ∧
    (verifyOtp hashOTP
      (sendOtp hashOTP (sendOtp hashOTP db now1 sn1 (some p) r1 d1).2 now2 sn2 (some p) r2 d2).2
      now3 (some p) (some (generateOTP r1))).1 = .mismatch := by
  have h1 := generateOTP_ne_empty r1
  cases d1 <;> cases d2 <;>
    simp [sendOtp, verifyOtp, OtpStore.set, hp, h1, hne, hlive]

/-- C6, witnessed on concrete inputs. -/
theorem C6_resend_overwrites_invalidates_first_witness :
    (sendOtp idHash (sendOtp idHash emptyStore 0 0 (some "9876543210") 0 true).2 0 0
      (some "9876543210") 1 true).2 (normalizePhone "9876543210")
      = some ⟨idHash (generateOTP 1), 0 + OTP_EXPIRY_MS, 0⟩ ∧
    (verifyOtp idHash
      (sendOtp idHash (sendOtp idHash emptyStore 0 0 (some "9876543210") 0 true).2 0 0
        (some "9876543210") 1 true).2
      1 (some "9876543210") (some (generateOTP 0))).1 = .mismatch :=
  C6_resend_overwrites_invalidates_first idHash emptyStore 0 0 0 0 1 "9876543210" 0 1
    true true (by decide) (by decide) (by decide)

/-- C7: the standalone verify is non-consuming — on a successful match it
returns `verified` with the store unchanged, the record still present —
whereas the reset flow's verify step deletes the record on match: the
asymmetry between the two operations. -/
theorem C7_verify_nonconsuming_reset_consuming (hashOTP : String → String)
    (db : OtpStore) (now : Nat) (p o pw : String) (rec : OtpRecord) (idOk : Bool)
    (hp : p ≠ "") (ho : o ≠ "") (hpw : pw ≠ "")
    (hrec : db (normalizePhone p) = some rec)
    (hlive : ¬ rec.expiresAt < now)
    (hmatch : hashOTP o = rec.otpHash) :
    (verifyOtp hashOTP db now (some p) (some o)).1 = .verified ∧
    (verifyOtp hashOTP db now (some p) (some o)).2 = db ∧
    (verifyOtp hashOTP db now (some p) (some o)).2 (normalizePhone p) = some rec ∧
    (resetPassword hashOTP db now (some p) (some o) (some pw) idOk).2.1 (normalizePhone p)
      = none := by
  simp [verifyOtp, resetPassword, OtpStore.del, hp, ho, hpw, hrec, hlive, hmatch]

/-- C7, witnessed on concrete inputs. -/
theorem C7_verify_nonconsuming_reset_consuming_witness :
    (verifyOtp idHash sampleDb 5 (some "9876543210") (some "123456")).1 = .verified ∧
    (verifyOtp idHash sampleDb 5 (some "9876543210") (some "123456")).2 = sampleDb ∧
    (verifyOtp idHash sampleDb 5 (some "9876543210") (some "123456")).2
      (normalizePhone "9876543210") = some ⟨"123456", 300000, 0⟩ ∧
    (resetPassword idHash sampleDb 5 (some "9876543210") (some "123456") (some "pw") true).2.1
      (normalizePhone "9876543210") = none :=
  C7_verify_nonconsuming_reset_consuming idHash sampleDb 5 "9876543210" "123456" "pw"
    ⟨"123456", 300000, 0⟩ true (by decide) (by decide) (by decide) (by decide)
    (by decide) (by decide)

/-- C8: phone normalization is idempotent on every input, and an input
whose digit sequence extends a 10-digit core by an arbitrary prefix of
extra digits (country code) — separators and other non-digits being
discarded by the filter — normalizes to the same key as the bare core. -/
theorem C8_normalize_idempotent_formatting_invariant (x y z : String)
    (pre : List Char)
    (hy : y.data.filter Char.isDigit = pre ++ x.data.filter Char.isDigit)
    (hx : (x.data.filter Char.isDigit).length = 10) :
    normalizePhone (normalizePhone z) = normalizePhone z ∧
    normalizePhone y = normalizePhone x := by
  constructor
  · unfold normalizePhone
    have hall : ∀ a ∈ (z.data.filter Char.isDigit).drop
        ((z.data.filter Char.isDigit).length - 10), Char.isDigit a = true :=
      fun a ha => (List.mem_filter.1 (List.mem_of_mem_drop ha)).2
    simp only [List.filter_eq_self.mpr hall]
    have hle : ((z.data.filter Char.isDigit).drop
        ((z.data.filter Char.isDigit).length - 10)).length ≤ 10 := by
      rw [List.length_drop]; omega
    have h0 : ((z.data.filter Char.isDigit).drop
        ((z.data.filter Char.isDigit).length - 10)).length - 10 = 0 := by omega
    rw [h0, List.drop_zero]
  · unfold normalizePhone
    rw [hy]
    have h1 : (pre ++ x.data.filter Char.isDigit).length - 10 = pre.length := by
      simp [hx]
    simp [h1, List.drop_left, hx]

/-- C8, witnessed on concrete inputs: a country-code-and-separator
formatted number and its bare 10-digit core. -/
theorem C8_normalize_idempotent_formatting_invariant_witness :
    normalizePhone (normalizePhone "+91 98765-43210") = normalizePhone "+91 98765-43210" ∧
    normalizePhone "+91 98765-43210" = normalizePhone "9876543210" :=
  C8_normalize_idempotent_formatting_invariant "9876543210" "+91 98765-43210"
    "+91 98765-43210" ['9', '1'] (by decide) (by decide)

/-- C9, refuted as stated: the record stored by `/send-otp` has
`expiresAt = Date.now() + OTP_EXPIRY_MS` from the app clock but
`createdAt` from the Firestore server clock; when the two clock readings
differ (app clock 0, server clock 1 here), `expiresAt ≠ createdAt +
OTP_EXPIRY_MS`. -/
theorem C9_counterexample :
    ∃ rec, (sendOtp (fun s => s) emptyStore 0 1 (some "9876543210") 0 true).2 "9876543210"
      = some rec ∧ rec.expiresAt ≠ rec.createdAt + OTP_EXPIRY_MS :=
  ⟨⟨"100000", OTP_EXPIRY_MS, 1⟩, by decide, by decide⟩

/-- C9, amended: every record stored by `/send-otp` has `expiresAt` equal
to the requesting call's `Date.now()` reading plus the fixed 5-minute TTL
and `createdAt` equal to the server-assigned timestamp, and
`expiresAt = createdAt + TTL` holds exactly when the server timestamp
coincides with that `Date.now()` reading. -/
theorem C9_expiry_is_app_clock_plus_ttl (hashOTP : String → String)
    (db : OtpStore) (now serverNow : Nat) (p : String) (rand : Nat)
    (deliveryOk : Bool) (rec : OtpRecord)
    (hp : p ≠ "")
    (h2 : (sendOtp hashOTP db now serverNow (some p) rand deliveryOk).2 (normalizePhone p)
      = some rec) :
    rec.expiresAt = now + OTP_EXPIRY_MS ∧ rec.createdAt = serverNow ∧
    (rec.expiresAt = rec.createdAt + OTP_EXPIRY_MS ↔ serverNow = now) := by
  have h1 : (sendOtp hashOTP db now serverNow (some p) rand deliveryOk).2 (normalizePhone p)
      = some ⟨hashOTP (generateOTP rand), now + OTP_EXPIRY_MS, serverNow⟩ := by
    cases deliveryOk <;> simp [sendOtp, OtpStore.set, hp]
  rw [h1] at h2
  injection h2 with h3
  subst h3
  refine ⟨rfl, rfl, ?_⟩
  show now + OTP_EXPIRY_MS = serverNow + OTP_EXPIRY_MS ↔ serverNow = now
  constructor
  · intro h; omega
  · intro h; omega

/-- C9 (amended form), witnessed on concrete inputs with disagreeing
clocks. -/
theorem C9_expiry_is_app_clock_plus_ttl_witness :
    (⟨"100000", OTP_EXPIRY_MS, 1⟩ : OtpRecord).expiresAt = 0 + OTP_EXPIRY_MS ∧
    (⟨"100000", OTP_EXPIRY_MS, 1⟩ : OtpRecord).createdAt = 1 ∧
    ((⟨"100000", OTP_EXPIRY_MS, 1⟩ : OtpRecord).expiresAt
      = (⟨"100000", OTP_EXPIRY_MS, 1⟩ : OtpRecord).createdAt + OTP_EXPIRY_MS ↔ (1 : Nat) = 0) :=
  C9_expiry_is_app_clock_plus_ttl idHash emptyStore 0 1 "9876543210" 0 true
    ⟨"100000", OTP_EXPIRY_MS, 1⟩ (by decide) (by decide)

/-- C10, refuted as stated: the all-non-digit phone `"abc!"` passes the
raw `!phone` check (so the outcome is not `invalidInput`), but no record
is stored under the empty-string key — `db.collection("otp_requests")
.doc("")` throws in the Firestore SDK (document paths must be non-empty),
so the request takes the catch path (`storeError`, the generic 500) and
writes nothing. -/
theorem C10_counterexample :
    (sendOtpFirestore idHash emptyStore 0 0 (some "abc!") 0 true).1 ≠ .invalidInput ∧
    (sendOtpFirestore idHash emptyStore 0 0 (some "abc!") 0 true).1 = .storeError ∧
    (sendOtpFirestore idHash emptyStore 0 0 (some "abc!") 0 true).2 "" = none := by
  decide

/-- C10, amended: `/send-otp` fails with `invalidInput` exactly when the
raw phone field is absent or the empty string (the check precedes
normalization).  A non-empty input with no digit characters passes that
check and normalizes — like every such input — to the empty-string key,
but the store's document-path validation rejects the empty key, so the
request fails with the generic 500 and nothing is stored; a verify on such
an input likewise fails with the generic 500 instead of reading a shared
record. -/
theorem C10_empty_key_rejected_by_store (hashOTP : String → String)
    (db : OtpStore) (now serverNow : Nat) (phone : Option String) (rand : Nat)
    (deliveryOk : Bool) (s t o : String)
    (hs : s ≠ "") (hsd : s.data.filter Char.isDigit = [])
    (hts : t ≠ "") (htd : t.data.filter Char.isDigit = [])
    (ho : o ≠ "") :
    ((sendOtpFirestore hashOTP db now serverNow phone rand deliveryOk).1 = .invalidInput
      ↔ phone = none ∨ phone = some "") ∧
    normalizePhone s = "" ∧ normalizePhone t = "" ∧
    sendOtpFirestore hashOTP db now serverNow (some s) rand deliveryOk = (.storeError, db) ∧
    sendOtpFirestore hashOTP db now serverNow (some t) rand deliveryOk = (.storeError, db) ∧
    verifyOtpFirestore hashOTP db now (some s) (some o) = (.storeError, db) := by
  have hns : normalizePhone s = "" := by
    unfold normalizePhone; rw [hsd]; rfl
  have hnt : normalizePhone t = "" := by
    unfold normalizePhone; rw [htd]; rfl
  refine ⟨?_, hns, hnt, ?_, ?_, ?_⟩
  · rcases phone with _ | q
    · simp [sendOtpFirestore]
    · by_cases hq : q = ""
      · simp [sendOtpFirestore, hq]
      · by_cases hk : normalizePhone q = "" <;> cases deliveryOk <;>
          simp [sendOtpFirestore, hq, hk]
  · simp [sendOtpFirestore, hs, hns]
  · simp [sendOtpFirestore, hts, hnt]
  · simp [verifyOtpFirestore, hs, ho, hns]

/-- C10 (amended form), witnessed on concrete inputs: two distinct
non-empty all-non-digit phone strings, neither stored nor readable. -/
theorem C10_empty_key_rejected_by_store_witness :
    ((sendOtpFirestore idHash emptyStore 0 0 (some "x-y") 0 true).1 = .invalidInput
      ↔ (some "x-y" : Option String) = none ∨ (some "x-y" : Option String) = some "") ∧
    normalizePhone "abc!" = "" ∧ normalizePhone "x-y" = "" ∧
    sendOtpFirestore idHash emptyStore 0 0 (some "abc!") 0 true = (.storeError, emptyStore) ∧
    sendOtpFirestore idHash emptyStore 0 0 (some "x-y") 0 true = (.storeError, emptyStore) ∧
    verifyOtpFirestore idHash emptyStore 0 (some "abc!") (some "123456")
      = (.storeError, emptyStore) :=
  C10_empty_key_rejected_by_store idHash emptyStore 0 0 (some "x-y") 0 true
    "abc!" "x-y" "123456" (by decide) (by decide) (by decide) (by decide) (by decide)
